import Mathlib

/-!
Verification development for the signature annotation synthesizer of the
idlemypyextension repository (file src/idlemypyextension/annotate.py).

The Python code is shallowly embedded: every definition below mirrors a
function of annotate.py, keeping the source structure and the source order of
checks.  The generic source-code tokenizer used by tokenize_definition is the
Python standard library module tokenize: it is an external collaborator, so
its output stream (token kind name, token string, end column, raw line text,
and the number of source lines the tokenizer has pulled when the token is
yielded) is modelled as an input value of type List PyTok.  Concrete PyTok
lists used in theorems reproduce the actual CPython token stream for the
quoted header text.

Python exceptions are modelled with Except: ParseError becomes Err.parse,
EOFError becomes Err.eof, and the two impossible-by-construction failures
(IndexError from list indexing, AssertionError from assert statements) get
their own constructors.  Bounded loops of the source are written with
explicit fuel chosen larger than the number of loop iterations the source
can perform on the given input; running out of fuel yields a distinguished
Err.parse message so that it can never be confused with a source behaviour.
-/

instance {ε α : Type} [DecidableEq ε] [DecidableEq α] : DecidableEq (Except ε α) := fun x y =>
  match x, y with
  | .ok a, .ok b =>
    if h : a = b then isTrue (by rw [h]) else isFalse (by intro hh; cases hh; exact h rfl)
  | .ok _, .error _ => isFalse (by intro h; cases h)
  | .error _, .ok _ => isFalse (by intro h; cases h)
  | .error e, .error f =>
    if h : e = f then isTrue (by rw [h]) else isFalse (by intro hh; cases hh; exact h rfl)

namespace Annotate

/-- Errors raised by the embedded code: ParseError, EOFError, plus markers for
Python IndexError and AssertionError. -/
inductive Err where
  | parse (msg : String)
  | eof (msg : String)
  | indexError
  | assertViol
deriving DecidableEq, Repr

/-- Tokens of annotate.py.  One constructor per concrete Python token class
that the code instantiates; the Python class hierarchy is recovered by the
predicates below. -/
inductive Tok where
  | lambdaBody (text : String)
  | functionName (text : String)
  | argumentName (text : String)
  | dottedName (text : String)
  | argumentDefault (text : String)
  | separator (text : String)
  | endSeparator (text : String)
  | typeDef (text : String)
  | defaultDef (text : String)
  | keyword (text : String)
  | definitionKw (text : String)
  | returnTypeDef (text : String)
  | endDefinition (text : String)
  | endTok
deriving DecidableEq, Repr

/-- The text payload: every token carries text except End (text None). -/
def Tok.textOrNone : Tok → Option String
  | .lambdaBody t => some t
  | .functionName t => some t
  | .argumentName t => some t
  | .dottedName t => some t
  | .argumentDefault t => some t
  | .separator t => some t
  | .endSeparator t => some t
  | .typeDef t => some t
  | .defaultDef t => some t
  | .keyword t => some t
  | .definitionKw t => some t
  | .returnTypeDef t => some t
  | .endDefinition t => some t
  | .endTok => none

/-- isinstance(token, Separator): Separator and its subclasses EndSeparator,
Colin (hence TypeDef, EndDefinition), DefaultDef, ReturnTypeDef. -/
def Tok.isSeparatorClass : Tok → Bool
  | .separator _ => true
  | .endSeparator _ => true
  | .typeDef _ => true
  | .defaultDef _ => true
  | .returnTypeDef _ => true
  | .endDefinition _ => true
  | _ => false

/-- isinstance(token, EndSeparator): exactly the EndSeparator class. -/
def Tok.isEndSeparatorExact : Tok → Bool
  | .endSeparator _ => true
  | _ => false

/-- isinstance(token, ArgumentName). -/
def Tok.isArgumentNameExact : Tok → Bool
  | .argumentName _ => true
  | _ => false

/-- isinstance(token, TypeDef): exactly TypeDef (EndDefinition is a Colin but
not a TypeDef). -/
def Tok.isTypeDefExact : Tok → Bool
  | .typeDef _ => true
  | _ => false

/-- isinstance(token, DefaultDef). -/
def Tok.isDefaultDefExact : Tok → Bool
  | .defaultDef _ => true
  | _ => false

/-- isinstance(token, End). -/
def Tok.isEndTok : Tok → Bool
  | .endTok => true
  | _ => false

/-- isinstance(token, ReturnTypeDef | EndDefinition). -/
def Tok.isRetOrEndDef : Tok → Bool
  | .returnTypeDef _ => true
  | .endDefinition _ => true
  | _ => false

/-- isinstance(token, EndDefinition). -/
def Tok.isEndDefinitionExact : Tok → Bool
  | .endDefinition _ => true
  | _ => false

/-- isinstance(token, DottedName): DottedName and its subclass
ArgumentDefault. -/
def Tok.isDottedNameClass : Tok → Bool
  | .dottedName _ => true
  | .argumentDefault _ => true
  | _ => false

/-- isinstance(token, Keyword): Keyword and its subclass Definition. -/
def Tok.isKeywordClass : Tok → Bool
  | .keyword _ => true
  | .definitionKw _ => true
  | _ => false

/-- isinstance(token, LambdaBody). -/
def Tok.isLambdaBodyExact : Tok → Bool
  | .lambdaBody _ => true
  | _ => false

/-! ## The type-expression lexer (annotate.tokenize, lines 159-205) -/

/-- Python regex \s (ASCII fragment). -/
def pyIsSpaceChar (c : Char) : Bool :=
  c = ' ' ∨ c = '\t' ∨ c = '\n' ∨ c = '\r' ∨ c = '\x0b' ∨ c = '\x0c'

/-- Python regex \w, restricted to its ASCII fragment (the repository's type
strings are ASCII). -/
def isWordChar (c : Char) : Bool := c.isAlpha ∨ c.isDigit ∨ c = '_'

/-- Character class of the leading run in TOKENIZE_PATTERN. -/
def isNameStartChar (c : Char) : Bool := c = '-' ∨ c = '\x60' ∨ isWordChar c

/-- Character class of the run after a dot or colon in TOKENIZE_PATTERN. -/
def isNameTailChar (c : Char) : Bool := c = '-' ∨ c = '/' ∨ isWordChar c

/-- Greedy match of the regex tail, one iteration per dot or colon
encountered after optional whitespace.  Fuel bounds the iteration count;
matchName passes the length of the remaining input, which is enough because
every iteration consumes the dot or colon. -/
def matchTailGo : Nat → List Char → List Char × List Char
  | 0, l => ([], l)
  | fuel + 1, l =>
    let ws := l.takeWhile pyIsSpaceChar
    let r1 := l.dropWhile pyIsSpaceChar
    match r1 with
    | [] => ([], l)
    | c :: r2 =>
      if c = '.' ∨ c = ':' then
        let ws2 := r2.takeWhile pyIsSpaceChar
        let r3 := r2.dropWhile pyIsSpaceChar
        let tl := r3.takeWhile isNameTailChar
        let r4 := r3.dropWhile isNameTailChar
        let (m, r5) := matchTailGo fuel r4
        (ws ++ c :: (ws2 ++ tl ++ m), r5)
      else ([], l)

/-- TOKENIZE_PATTERN matched at the current position: the matched span and
the remaining input, or none when the pattern does not match. -/
def matchName (l : List Char) : Option (List Char × List Char) :=
  let first := l.takeWhile isNameStartChar
  let r1 := l.dropWhile isNameStartChar
  if first = [] then none
  else
    let (tl, r2) := matchTailGo r1.length r1
    some (first ++ tl, r2)

/-- fullname after the whitespace removal and the backtick split of
annotate.tokenize lines 189-191. -/
def collapseName (m : List Char) : List Char :=
  (m.filter (fun c => ¬ c = ' ')).takeWhile (fun c => ¬ c = '\x60')

/-- Name post-processing of annotate.tokenize lines 189-203: whitespace
removal, backtick split, the pytz.tzfile rewrite, and the dash or slash
fallback to Any. -/
def processName (m : List Char) : String :=
  let f := collapseName m
  let f2 := if List.isPrefixOf "pytz.tzfile.".toList f
    then "datetime.tzinfo".toList else f
  if f2.contains '-' ∨ f2.contains '/' then "Any" else String.mk f2

/-- Does the lexer main loop fall through to the name branch at this input?
True when the input is nonempty and none of the earlier branches (whitespace,
single-character separators, arrow, ellipsis) applies. -/
def inNameBranch : List Char → Prop
  | [] => False
  | c :: rest =>
    ¬ (c = ' ' ∨ c = '\n')
    ∧ ¬ (c = '(' ∨ c = ')' ∨ c = '[' ∨ c = ']' ∨ c = ',' ∨ c = '*')
    ∧ ¬ ((c :: rest).take 2 = ['-', '>'])
    ∧ ¬ ((c :: rest).take 3 = ['.', '.', '.'])

instance (l : List Char) : Decidable (inNameBranch l) := by
  cases l with
  | nil => exact isFalse (fun h => h)
  | cons c rest => exact inferInstanceAs (Decidable (_ ∧ _ ∧ _ ∧ _))

/-- Main loop of annotate.tokenize.  The question-mark stripping happens once
in the wrapper; each recursive step consumes at least one character, so the
wrapper's fuel of length + 1 can never run out. -/
def tokenizeGo : Nat → List Char → Except Err (List Tok)
  | 0, _ => .error (.parse "tokenizer out of fuel")
  | fuel + 1, l =>
    match l with
    | [] => .ok [Tok.endTok]
    | c :: rest =>
      if c = ' ' ∨ c = '\n' then tokenizeGo fuel rest
      else if c = '(' ∨ c = ')' ∨ c = '[' ∨ c = ']' ∨ c = ',' ∨ c = '*' then
        (tokenizeGo fuel rest).map (fun ts => Tok.separator (String.mk [c]) :: ts)
      else if l.take 2 = ['-', '>'] then
        (tokenizeGo fuel (l.drop 2)).map (fun ts => Tok.separator "->" :: ts)
      else if l.take 3 = ['.', '.', '.'] then
        (tokenizeGo fuel (l.drop 3)).map (fun ts => Tok.dottedName "..." :: ts)
      else
        match matchName l with
        | none => .error (.parse ("Could not parse " ++ String.mk l))
        | some (m, r) =>
          (tokenizeGo fuel r).map (fun ts => Tok.dottedName (processName m) :: ts)

/-- annotate.tokenize on a character list: strip question marks, then run the
main loop. -/
def tokenizeChars (l : List Char) : Except Err (List Tok) :=
  let t := l.filter (fun c => ¬ c = '?')
  tokenizeGo (t.length + 1) t

/-- annotate.tokenize on a string. -/
def tokenizeStr (s : String) : Except Err (List Tok) :=
  tokenizeChars s.toList

/-! ## TypeValue and its renderer (annotate.py lines 501-570) -/

/-- A parsed type: name plus argument list (annotate.TypeValue). -/
inductive TypeValue where
  | mk (name : String) (args : List TypeValue)

/-- TYPING_LOWER (annotate.py line 36); a Python set, modelled as a list with
membership via contains. -/
def TYPING_LOWER : List String := ["List", "Set", "Type", "Dict", "Tuple", "Overload"]

/-- Python str.lower for the ASCII names handled here. -/
def lowerStr (s : String) : String := String.mk (s.toList.map Char.toLower)

/-- Split a list at the first occurrence of c: the part before and the part
after (Python split(c, 1) when c occurs). -/
def splitFirst (c : Char) : List Char → Option (List Char × List Char)
  | [] => none
  | x :: xs =>
    if x = c then some ([], xs)
    else match splitFirst c xs with
      | none => none
      | some (a, b) => some (x :: a, b)

/-- One iteration of the separator loop in annotate.get_type_repr: if the
separator occurs in the name, split once and test the module part; returns
the replacement name if a rule fired. -/
def typeReprStep (sep : Char) (name : List Char) (ignoreModules : List String) :
    Option String :=
  match splitFirst sep name with
  | none => none
  | some (module, text) =>
    if String.mk module = "typing" ∨ String.mk module = "mypy_extensions" then
      if TYPING_LOWER.contains (String.mk text) then some (lowerStr (String.mk text))
      else some (String.mk text)
    else if ignoreModules.contains (String.mk module) then some (String.mk text)
    else none

/-- annotate.get_type_repr: try the dot separator, then the colon separator,
else return the name unchanged. -/
def getTypeRepr (name : String) (ignoreModules : List String) : String :=
  match typeReprStep '.' name.toList ignoreModules with
  | some r => r
  | none =>
    match typeReprStep ':' name.toList ignoreModules with
    | some r => r
    | none => name

/-- Python str.join with a separator. -/
def joinSep (sep : String) : List String → String
  | [] => ""
  | [x] => x
  | x :: xs => x ++ sep ++ joinSep sep xs

mutual

/-- annotate.get_typevalue_repr. -/
def getTypevalueRepr (ignoreModules : List String) : TypeValue → String
  | .mk name args =>
    let n0 := getTypeRepr name ignoreModules
    let n := if TYPING_LOWER.contains n0 then lowerStr n0 else n0
    let argStrs := getTypevalueReprList ignoreModules args
    if args.isEmpty then
      if ¬ n = "" then n else "[]"
    else if n = "Union" then joinSep " | " argStrs
    else if n = "__hacks_DictItem" then joinSep ": " argStrs
    else n ++ "[" ++ joinSep ", " argStrs ++ "]"

/-- The renderings of a list of TypeValues, in order (the args loop of
annotate.get_typevalue_repr lines 525-527). -/
def getTypevalueReprList (ignoreModules : List String) : List TypeValue → List String
  | [] => []
  | t :: ts => getTypevalueRepr ignoreModules t :: getTypevalueReprList ignoreModules ts

end

/-! ## The type comment parser (annotate.Parser, lines 582-792)

The Python Parser holds a token list and a mutable cursor; here every
operation takes the token list and the cursor and returns the new cursor.
The mutually recursive parse functions run on fuel; the wrappers pass a fuel
that exceeds what any run over the given token list can consume, and running
out of fuel gives a distinguished error. -/

/-- Parser.peek (annotate.py lines 732-736). -/
def peekTok (toks : List Tok) (i : Nat) : Except Err Tok :=
  if h : i < toks.length then .ok toks[i] else .error (.parse "Ran out of tokens")

/-- Parser.next: peek and advance. -/
def nextTok (toks : List Tok) (i : Nat) : Except Err (Tok × Nat) :=
  (peekTok toks i).map (fun t => (t, i + 1))

/-- Parser.lookup: text of the next token, None rendered as "None". -/
def lookupTok (toks : List Tok) (i : Nat) : Except Err String :=
  (peekTok toks i).map (fun t =>
    match t.textOrNone with
    | none => "None"
    | some s => s)

/-- Parser.expect. -/
def expectText (toks : List Tok) (i : Nat) (text : String) : Except Err Nat := do
  let (t, i1) ← nextTok toks i
  match t.textOrNone with
  | some s => if s = text then .ok i1 else .error (.parse ("Expected " ++ text))
  | none => .error (.parse ("Expected " ++ text))

/-- Parser.expect_type with DottedName: DottedName or its subclass
ArgumentDefault. -/
def expectDotted (toks : List Tok) (i : Nat) : Except Err (Tok × Nat) := do
  let (t, i1) ← nextTok toks i
  if t.isDottedNameClass then .ok (t, i1)
  else .error (.parse "Expected DottedName")

/-- Parser.expect_type with LambdaBody, followed by the text extraction of
Parser.parse_lambda. -/
def expectLambdaBody (toks : List Tok) (i : Nat) : Except Err (String × Nat) := do
  let (t, i1) ← nextTok toks i
  match t with
  | .lambdaBody body => .ok (body, i1)
  | _ => .error (.parse "Expected LambdaBody")

/-- The mutually recursive parse methods of annotate.Parser, gathered in a
record: the fuel-indexed family parserAt below ties the recursion, one fuel
unit per method call, exactly like passing fuel - 1 at every recursive
call. -/
structure ParserFns where
  pType : List Tok → Nat → Except Err (TypeValue × Nat)
  pUnion : List Tok → Nat → Except Err (List TypeValue × Nat)
  pDotted : List Tok → Nat → String → Except Err (String × Nat)
  pSingle : List Tok → Nat → Except Err (TypeValue × Nat)
  pList : List Tok → Nat → Except Err (List TypeValue × Nat)
  pDict : List Tok → Nat → Nat → Except Err (List TypeValue × Nat)

/-- Out-of-fuel bottom of the parser family (never reached: the wrappers pass
more fuel than a run over their token list can consume). -/
def parserFail : ParserFns where
  pType := fun _ _ => .error (.parse "parser out of fuel")
  pUnion := fun _ _ => .error (.parse "parser out of fuel")
  pDotted := fun _ _ _ => .error (.parse "parser out of fuel")
  pSingle := fun _ _ => .error (.parse "parser out of fuel")
  pList := fun _ _ => .error (.parse "parser out of fuel")
  pDict := fun _ _ _ => .error (.parse "parser out of fuel")

/-- One layer of the parser: each method of annotate.Parser, with recursive
calls going to the previous layer p. -/
def parserStep (p : ParserFns) : ParserFns where
  /- Parser.parse_type (annotate.py lines 719-726). -/
  pType := fun toks i => do
    let (tv, i1) ← p.pSingle toks i
    let s ← lookupTok toks i1
    if s = "|" then do
      let i2 ← expectText toks i1 "|"
      let (args, i3) ← p.pUnion toks i2
      .ok (.mk "Union" (tv :: args), i3)
    else .ok (tv, i1)
  /- Parser.parse_union_list (annotate.py lines 642-650). -/
  pUnion := fun toks i => do
    let (tv, i1) ← p.pSingle toks i
    let s ← lookupTok toks i1
    if s = "|" then do
      let i2 ← expectText toks i1 "|"
      let (rest, i3) ← p.pUnion toks i2
      .ok (tv :: rest, i3)
    else .ok ([tv], i1)
  /- Parser.read_dotted_name_with_spaces (annotate.py lines 652-662). -/
  pDotted := fun toks i add => do
    let (t, i1) ← expectDotted toks i
    match t.textOrNone with
    | none => .error (.parse "Expected token text to be string, got None")
    | some text =>
      if i1 < toks.length then do
        let pk ← peekTok toks i1
        if pk.isDottedNameClass then p.pDotted toks i1 (add ++ text ++ " ")
        else .ok (add ++ text, i1)
      else .ok (add ++ text, i1)
  /- Parser.parse_single (annotate.py lines 664-711). -/
  pSingle := fun toks i => do
    let s ← lookupTok toks i
    if s = "[" then do
      let i1 ← expectText toks i "["
      let (args, i2) ← p.pList toks i1
      let i3 ← expectText toks i2 "]"
      .ok (.mk "" args, i3)
    else do
      let (name, i1) ← p.pDotted toks i ""
      if name = "Any" then .ok (.mk "Any" [], i1)
      else if name = "mypy_extensions.NoReturn" ∨ name = "typing.NoReturn" then
        .ok (.mk "NoReturn" [], i1)
      else if name = "Tuple" then do
        let i2 ← expectText toks i1 "["
        let (args, i3) ← p.pList toks i2
        let i4 ← expectText toks i3 "]"
        .ok (.mk name args, i4)
      else if name = "Union" then do
        let i2 ← expectText toks i1 "["
        let (items, i3) ← p.pList toks i2
        let i4 ← expectText toks i3 "]"
        match items with
        | [single] => .ok (single, i4)
        | [] => .error (.parse "No items in Union")
        | _ => .ok (.mk name items, i4)
      else if name = "lambda" then do
        let (body, i2) ← expectLambdaBody toks i1
        .ok (.mk ("lambda " ++ body) [], i2)
      else if name = "Overload" then do
        let i2 ← expectText toks i1 "("
        let (args, i3) ← p.pList toks i2
        let i4 ← expectText toks i3 ")"
        .ok (.mk name args, i4)
      else do
        let s1 ← lookupTok toks i1
        if s1 = "[" then do
          let i2 ← expectText toks i1 "["
          let (args, i3) ← p.pList toks i2
          let i4 ← expectText toks i3 "]"
          match args with
          | [single] =>
            if name = "Optional" then .ok (.mk "Union" [single, .mk "None" []], i4)
            else .ok (.mk name args, i4)
          | _ => .ok (.mk name args, i4)
        else .ok (.mk name [], i1)
  /- Parser.parse_type_list (annotate.py lines 592-604). -/
  pList := fun toks i => do
    let s ← lookupTok toks i
    if s = ")" ∨ s = "]" then .ok ([], i)
    else do
      let (tv, i1) ← p.pType toks i
      let s1 ← lookupTok toks i1
      if s1 = "," then do
        let i2 ← expectText toks i1 ","
        let (rest, i3) ← p.pList toks i2
        .ok (tv :: rest, i3)
      else if s1 = ")" ∨ s1 = "]" then .ok ([tv], i1)
      else .error (.parse "Expected close bracket or comma")
  /- Parser.parse_type_dict_or_set (annotate.py lines 606-629); which is 0
  while undecided, 1 for dict, 2 for set. -/
  pDict := fun toks i which => do
    let s ← lookupTok toks i
    if s = "\x7d" then .ok ([], i)
    else do
      let (tv, i1) ← p.pType toks i
      let s1 ← lookupTok toks i1
      let which1 := if which = 0 then (if s1 = ":" then 1 else 2) else which
      if which1 = 1 then do
        let i2 ← expectText toks i1 ":"
        let (tv2, i3) ← p.pType toks i2
        let element := TypeValue.mk "__hacks_DictItem" [tv, tv2]
        let s2 ← lookupTok toks i3
        if s2 = "," then do
          let i4 ← expectText toks i3 ","
          let (rest, i5) ← p.pDict toks i4 which1
          .ok (element :: rest, i5)
        else if s2 = "\x7d" then .ok ([element], i3)
        else .error (.parse "Expected close brace or comma")
      else do
        let s2 ← lookupTok toks i1
        if s2 = "," then do
          let i4 ← expectText toks i1 ","
          let (rest, i5) ← p.pDict toks i4 which1
          .ok (tv :: rest, i5)
        else if s2 = "\x7d" then .ok ([tv], i1)
        else .error (.parse "Expected close brace or comma")

/-- The parser family at a given fuel. -/
def parserAt : Nat → ParserFns
  | 0 => parserFail
  | fuel + 1 => parserStep (parserAt fuel)

/-- Parser.parse_type at a given fuel. -/
def parseTypeF (fuel : Nat) (toks : List Tok) (i : Nat) : Except Err (TypeValue × Nat) :=
  (parserAt fuel).pType toks i

/-- Parser.parse_type_collection (annotate.py lines 631-640). -/
def parseTypeCollectionF (fuel : Nat) (toks : List Tok) (i : Nat) (start : String) :
    Except Err (List TypeValue × Nat) :=
  if start = "(" ∨ start = "[" then (parserAt fuel).pList toks i
  else if start = "\x7b" then (parserAt fuel).pDict toks i 0
  else .error (.parse "Unhandled collection start")

/-- Fuel that exceeds what any parse over the token list can consume. -/
def parserFuel (toks : List Tok) : Nat := toks.length * 4 + 16

/-- parse_type from the start of a fresh Parser over toks. -/
def parseTypeTop (toks : List Tok) (i : Nat) : Except Err (TypeValue × Nat) :=
  parseTypeF (parserFuel toks) toks i

/-- Tokenize a type string and parse it, as get_annotation does for each
inferred argument or return type string. -/
def parseTypeString (s : String) : Except Err TypeValue := do
  let toks ← tokenizeStr s
  let (tv, _) ← parseTypeTop toks 0
  .ok tv

/-- Parse a type string and render the result (tokenize, Parser.parse_type,
get_typevalue_repr with no ignored modules). -/
def renderTypeString (s : String) : Except Err String :=
  (parseTypeString s).map (getTypevalueRepr [])

/-! ## The definition lexer (annotate.tokenize_definition, lines 208-498)

tokenize_definition drives the Python standard library tokenizer over a
pull-based line source.  That tokenizer is external, so its output is an
input here: a PyTok carries the token kind name (tok_name), the token
string, the end column, the raw source line, and the number of lines the
tokenizer has pulled from read_line by the time the token is yielded (which
is what the source's current_line_no counter equals then). -/

/-- One token of the Python standard library tokenizer. -/
structure PyTok where
  kind : String
  string : String
  endCol : Nat
  line : String
  linesRead : Nat
deriving DecidableEq, Repr

/-- Tokens appended by the tokenize_definition loop.  The loop never appends
an End token (End is appended once, after the loop, annotate.py line 497),
which this accumulator type records; toTok injects back into Tok. -/
inductive TokNE where
  | lambdaBody (text : String)
  | functionName (text : String)
  | argumentName (text : String)
  | dottedName (text : String)
  | argumentDefault (text : String)
  | separator (text : String)
  | endSeparator (text : String)
  | typeDef (text : String)
  | defaultDef (text : String)
  | keyword (text : String)
  | definitionKw (text : String)
  | returnTypeDef (text : String)
  | endDefinition (text : String)
deriving DecidableEq, Repr

/-- Injection of loop tokens into Tok. -/
def TokNE.toTok : TokNE → Tok
  | .lambdaBody t => .lambdaBody t
  | .functionName t => .functionName t
  | .argumentName t => .argumentName t
  | .dottedName t => .dottedName t
  | .argumentDefault t => .argumentDefault t
  | .separator t => .separator t
  | .endSeparator t => .endSeparator t
  | .typeDef t => .typeDef t
  | .defaultDef t => .defaultDef t
  | .keyword t => .keyword t
  | .definitionKw t => .definitionKw t
  | .returnTypeDef t => .returnTypeDef t
  | .endDefinition t => .endDefinition t

/-- Text payload (total: every loop token carries text). -/
def TokNE.text : TokNE → String
  | .lambdaBody t => t
  | .functionName t => t
  | .argumentName t => t
  | .dottedName t => t
  | .argumentDefault t => t
  | .separator t => t
  | .endSeparator t => t
  | .typeDef t => t
  | .defaultDef t => t
  | .keyword t => t
  | .definitionKw t => t
  | .returnTypeDef t => t
  | .endDefinition t => t

/-- isinstance(_, Separator) on loop tokens. -/
def TokNE.isSeparatorClass : TokNE → Bool
  | .separator _ => true
  | .endSeparator _ => true
  | .typeDef _ => true
  | .defaultDef _ => true
  | .returnTypeDef _ => true
  | .endDefinition _ => true
  | _ => false

/-- isinstance(_, DottedName) on loop tokens: DottedName or ArgumentDefault. -/
def TokNE.isDottedNameClass : TokNE → Bool
  | .dottedName _ => true
  | .argumentDefault _ => true
  | _ => false

/-- isinstance(_, ArgumentDefault) on loop tokens. -/
def TokNE.isArgumentDefaultExact : TokNE → Bool
  | .argumentDefault _ => true
  | _ => false

/-- Python "".join. -/
def concatStrs (l : List String) : String := l.foldl (fun a b => a ++ b) ""

/-- Python str.rstrip (ASCII whitespace). -/
def rstrip (s : String) : String :=
  String.mk ((s.toList.reverse.dropWhile pyIsSpaceChar).reverse)

/-- Python s[1:]. -/
def strDrop1 (s : String) : String := String.mk (s.toList.drop 1)

/-- Python s[:-1]. -/
def strDropLast (s : String) : String := String.mk s.toList.dropLast

/-- Python str.endswith. -/
def endsWithStr (s suffix : String) : Bool := List.isSuffixOf suffix.toList s.toList

/-- annotate.get_line_indent with the default char " ". -/
def getLineIndent (text : String) : Nat :=
  (text.toList.takeWhile (fun c => c = ' ')).length

/-- annotate.read_lambda (lines 217-258): scan generator tokens collecting
the lambda body text; returns the body, the over-read flag, the remaining
generator tokens, and the line count after the last consumed token. -/
def readLambda : List PyTok → Int → Bool → List String → Nat →
    Except Err (String × Bool × List PyTok × Nat)
  | [], _, _, _, _ => .error (.parse "Reading lambda failed")
  | t :: rest, brackets, hasArgs, accRev, _lines =>
    let s0 := t.string
    let isOp := t.kind = "OP"
    let brackets1 :=
      if isOp ∧ (s0 = "(" ∨ s0 = "[" ∨ s0 = "\x7b") then brackets + 1
      else if isOp ∧ (s0 = ")" ∨ s0 = "]" ∨ s0 = "\x7d") then brackets - 1
      else brackets
    let hasArgs1 := if isOp ∧ s0 = ":" then true else hasArgs
    let s := if isOp ∧ (s0 = ":" ∨ s0 = ",") then s0 ++ " " else s0
    let acc1 := s :: accRev
    let lineChars := t.line.toList
    let nextChar := lineChars.getD t.endCol ' '
    if t.endCol < lineChars.length ∧ (nextChar = ',' ∨ nextChar = '\n')
        ∧ hasArgs1 ∧ brackets1 = 0 then
      .ok (concatStrs acc1.reverse, false, rest, t.linesRead)
    else if t.endCol < lineChars.length ∧ s = ")" ∧ hasArgs1 ∧ brackets1 ≤ 0 then
      .ok (strDropLast (concatStrs acc1.reverse), true, rest, t.linesRead)
    else readLambda rest brackets1 hasArgs1 acc1 t.linesRead

/-- annotate.read_fstring (lines 261-280): collect an f-string's full text,
balancing nested f-string start or end tokens.  Fuel bounds the nesting plus
token count; the caller passes the remaining token count plus one. -/
def readFstringGo : Nat → String → List String → List PyTok →
    Except Err (String × List PyTok × Nat)
  | 0, _, _, _ => .error (.parse "f-string reader out of fuel")
  | _ + 1, _, _, [] => .error (.parse "Reading f-string failed")
  | fuel + 1, matchPair, accRev, t :: rest =>
    if t.kind = "FSTRING_START" then
      match readFstringGo fuel (strDrop1 t.string) [t.string] rest with
      | .error e => .error e
      | .ok (s, rest1, _) => readFstringGo fuel matchPair (s :: accRev) rest1
    else
      let s := t.string
      let acc1 := s :: accRev
      if t.kind = "FSTRING_END" ∧ s = matchPair then
        .ok (concatStrs acc1.reverse, rest, t.linesRead)
      else readFstringGo fuel matchPair acc1 rest

/-- Scanning state of tokenize_definition (annotate.py lines 298-304):
accRev is the token list built so far, newest first; lines is the
current_line_no counter relative to the start line. -/
structure DefLexState where
  hasdef : Bool
  defstart : Bool
  brackets : Int
  typedef : Nat
  defaultArg : Nat
  accRev : List TokNE
  lines : Nat
deriving DecidableEq, Repr

/-- Initial state. -/
def initDefLexState : DefLexState :=
  { hasdef := false, defstart := false, brackets := 0, typedef := 0,
    defaultArg := 0, accRev := [], lines := 0 }

/-- tokens.append. -/
def DefLexState.push (st : DefLexState) (t : TokNE) : DefLexState :=
  { st with accRev := t :: st.accRev }

/-- The token loop of annotate.tokenize_definition (lines 308-494).  Returns
the accumulated tokens (newest first) and the relative line count; the
wrapper appends the final End.  One fuel unit per loop iteration; every
iteration consumes at least one generator token, so the wrapper's fuel of
length + 1 cannot run out. -/
def tdGo (getLine : Nat → String) (startLine : Nat) :
    Nat → DefLexState → List PyTok → Except Err (List TokNE × Nat)
  | 0, _, _ => .error (.parse "definition lexer out of fuel")
  | _ + 1, st, [] => .ok (st.accRev, st.lines)
  | fuel + 1, st, t :: rest =>
    let s := t.string
    let st0 := { st with lines := t.linesRead }
    if t.kind = "NAME" then
      if s = "async" then tdGo getLine startLine fuel (st0.push (.keyword s)) rest
      else if s = "def" then
        if st0.hasdef then .error (.parse "Did not expect second definition keyword")
        else tdGo getLine startLine fuel
          { (st0.push (.definitionKw s)) with hasdef := true } rest
      else if ¬ st0.defstart then
        tdGo getLine startLine fuel (st0.push (.functionName s)) rest
      else if ¬ st0.typedef = 0 then
        match st0.accRev with
        | prev :: tl =>
          if prev.isDottedNameClass ∧ endsWithStr prev.text "." then
            tdGo getLine startLine fuel
              { st0 with accRev := .dottedName (prev.text ++ s) :: tl } rest
          else tdGo getLine startLine fuel (st0.push (.dottedName s)) rest
        | [] => tdGo getLine startLine fuel (st0.push (.dottedName s)) rest
      else if ¬ st0.defaultArg = 0 ∧ s = "lambda" then
        let st1 := st0.push (.argumentDefault s)
        match readLambda rest 0 false [] st1.lines with
        | .error e => .error e
        | .ok (body, overRead, rest1, lines1) =>
          let st2 : DefLexState := { (st1.push (.lambdaBody body)) with lines := lines1 }
          if overRead = true then
            if st2.typedef = 0 then
              if st2.defaultArg = 0 then .error .assertViol
              else
                let st3 := { st2 with brackets := st2.brackets - 1, defaultArg := st2.defaultArg - 1 }
                tdGo getLine startLine fuel (st3.push (.endSeparator ")")) rest1
            else .error .assertViol
          else tdGo getLine startLine fuel st2 rest1
      else if ¬ st0.defaultArg = 0 then
        match st0.accRev with
        | (TokNE.argumentDefault prev) :: tl =>
          match (rstrip prev).toList.getLast? with
          | none => .error .indexError
          | some last =>
            if last = '+' ∨ last = '-' then
              tdGo getLine startLine fuel
                { st0 with accRev := .argumentDefault (prev ++ " " ++ s) :: tl } rest
            else
              tdGo getLine startLine fuel
                { st0 with accRev := .argumentDefault (prev ++ s) :: tl } rest
        | _ => tdGo getLine startLine fuel (st0.push (.argumentDefault s)) rest
      else tdGo getLine startLine fuel (st0.push (.argumentName s)) rest
    else if t.kind = "OP" then
      if s = "(" ∨ s = "[" ∨ s = "\x7b" then
        let defstart1 := if ¬ st0.defstart ∧ st0.hasdef ∧ s = "(" then true else st0.defstart
        let typedef1 := if ¬ st0.typedef = 0 then st0.typedef + 1 else st0.typedef
        let st1 := { st0 with brackets := st0.brackets + 1, defstart := defstart1, typedef := typedef1 }
        tdGo getLine startLine fuel (st1.push (.endSeparator s)) rest
      else if s = ")" ∨ s = "]" ∨ s = "\x7d" then
        let typedef1 := if ¬ st0.typedef = 0 then st0.typedef - 1 else st0.typedef
        let defaultArg1 := if ¬ st0.defaultArg = 0 then st0.defaultArg - 1 else st0.defaultArg
        let st1 := { st0 with brackets := st0.brackets - 1, typedef := typedef1, defaultArg := defaultArg1 }
        tdGo getLine startLine fuel (st1.push (.endSeparator s)) rest
      else if (s = "*" ∨ s = "**" ∨ s = "/") ∧ st0.defaultArg = 0 then
        tdGo getLine startLine fuel (st0.push (.endSeparator s)) rest
      else if s = "|" then tdGo getLine startLine fuel (st0.push (.separator s)) rest
      else if s = "," then
        let typedef1 := if st0.typedef = 1 then 0 else st0.typedef
        let defaultArg1 := if st0.defaultArg = 1 then 0 else st0.defaultArg
        let st1 := { st0 with typedef := typedef1, defaultArg := defaultArg1 }
        tdGo getLine startLine fuel (st1.push (.separator s)) rest
      else if s = "->" then
        tdGo getLine startLine fuel { (st0.push (.returnTypeDef s)) with typedef := 1 } rest
      else if s = ":" then
        if st0.defstart = true ∧ st0.brackets = (0 : Int) then
          .ok ((st0.push (.endDefinition s)).accRev, st0.lines)
        else tdGo getLine startLine fuel { (st0.push (.typeDef s)) with typedef := 1 } rest
      else if s = "=" then
        tdGo getLine startLine fuel
          { (st0.push (.defaultDef s)) with typedef := 0, defaultArg := 1 } rest
      else if s = "-" ∨ s = "+" ∨ s = "~" then
        match st0.accRev with
        | (TokNE.argumentDefault prev) :: tl =>
          if s = "-" ∨ s = "+" then
            tdGo getLine startLine fuel
              { st0 with accRev := .argumentDefault (prev ++ " " ++ s) :: tl } rest
          else
            tdGo getLine startLine fuel
              { st0 with accRev := .argumentDefault (prev ++ s) :: tl } rest
        | _ => tdGo getLine startLine fuel (st0.push (.argumentDefault s)) rest
      else
      let prevIsAD : Bool :=
        match st0.accRev with
        | (TokNE.argumentDefault _) :: _ => true
        | _ => false
      if (s = "/" ∨ s = "//" ∨ s = "*" ∨ s = "^" ∨ s = "@" ∨ s = "%" ∨ s = "**"
          ∨ s = ">>" ∨ s = "<<" ∨ s = "&" ∨ s = "|") ∧ prevIsAD = true then
        match st0.accRev with
        | (TokNE.argumentDefault prev) :: tl =>
          tdGo getLine startLine fuel
            { st0 with accRev := .argumentDefault (prev ++ " " ++ s ++ " ") :: tl } rest
        | _ => .error .assertViol
      else
      let prevIsDotted : Bool :=
        match st0.accRev with
        | prev :: _ => prev.isDottedNameClass
        | [] => false
      if s = "." ∧ prevIsDotted = true then
        match st0.accRev with
        | prev :: tl =>
          tdGo getLine startLine fuel
            { st0 with accRev := .dottedName (prev.text ++ s) :: tl } rest
        | [] => .error .assertViol
      else if s = "..." then tdGo getLine startLine fuel (st0.push (.dottedName s)) rest
      else .error (.parse ("Exhaustive list of OP failed: " ++ s))
    else if t.kind = "NL" ∨ t.kind = "NEWLINE" then
      let st1 :=
        match st0.accRev with
        | prev :: tl =>
          if prev.isSeparatorClass then { st0 with accRev := .endSeparator prev.text :: tl }
          else st0
        | [] => st0
      let st2 := st1.push (.endSeparator s)
      let indent := getLineIndent (getLine (startLine + t.linesRead))
      let st3 := st2.push (.endSeparator (String.mk (List.replicate indent ' ')))
      tdGo getLine startLine fuel st3 rest
    else if t.kind = "COMMENT" then
      tdGo getLine startLine fuel (st0.push (.endSeparator ("  " ++ s))) rest
    else if t.kind = "STRING" ∨ t.kind = "NUMBER" then
      match st0.accRev with
      | (TokNE.argumentDefault prev) :: tl =>
        tdGo getLine startLine fuel
          { st0 with accRev := .argumentDefault (prev ++ s) :: tl } rest
      | _ => tdGo getLine startLine fuel (st0.push (.argumentDefault s)) rest
    else if t.kind = "INDENT" then
      tdGo getLine startLine fuel (st0.push (.endSeparator s)) rest
    else if t.kind = "FSTRING_START" then
      match readFstringGo (rest.length + 1) (strDrop1 s) [s] rest with
      | .error e => .error e
      | .ok (txt, rest1, lines1) =>
        tdGo getLine startLine fuel
          { (st0.push (.argumentDefault txt)) with lines := lines1 } rest1
    else if t.kind = "ENDMARKER" then
      .error (.eof "Found ENDMARKER token while reading function definition")
    else .error (.parse ("Unrecognized token type " ++ t.kind))

/-- annotate.tokenize_definition: run the loop, then append the single final
End token (annotate.py line 497) and return the tokens with the consumed
line count. -/
def tokenizeDefinition (getLine : Nat → String) (startLine : Nat) (ptoks : List PyTok) :
    Except Err (List Tok × Nat) :=
  (tdGo getLine startLine (ptoks.length + 1) initDefLexState ptoks).map
    (fun r => (r.1.reverse.map TokNE.toTok ++ [Tok.endTok], r.2))

/-! ## The signature synthesizer (annotate.get_annotation, lines 795-960) -/

/-- annotate.normalize_path: make all paths unix paths. -/
def normalizePath (path : String) : String :=
  String.mk (path.toList.map (fun c => if c = '\\' then '/' else c))

/-- path.rsplit("/", 1)[-1]: the part after the last slash (the whole string
when there is none). -/
def afterLastSlash (s : List Char) : List Char :=
  ((s.reverse.takeWhile (fun c => ¬ c = '/'))).reverse

/-- filename.rsplit(".", 1)[0]: the part before the last dot (the whole
string when there is none). -/
def beforeLastDot (s : List Char) : List Char :=
  if s.contains '.' then ((s.reverse.dropWhile (fun c => ¬ c = '.')).drop 1).reverse
  else s

/-- ignore_modules of annotate.get_annotation lines 828-832: the module stem
of the file name, when nonempty. -/
def computeIgnoreModules (path : String) : List String :=
  let filename := afterLastSlash (normalizePath path).toList
  let moduleName := String.mk (beforeLastDot filename)
  if moduleName = "" then [] else [moduleName]

/-- Python list indexing, with the negative-index wraparound and IndexError
semantics of arg_tokens[arg_place]. -/
def pyIdx {alpha : Type} (l : List alpha) (i : Int) : Except Err alpha :=
  if 0 ≤ i then
    match l.get? i.toNat with
    | some x => .ok x
    | none => .error .indexError
  else
    let j : Int := (l.length : Int) + i
    if 0 ≤ j then
      match l.get? j.toNat with
      | some x => .ok x
      | none => .error .indexError
    else .error .indexError

/-- Head-copy loop of annotate.get_annotation lines 836-850: copy token text
up to the first ArgumentName or ")" (left un-consumed, mirroring
parser.back()), with a space after any Keyword. -/
def copyGo : Nat → List Tok → Nat → String → Except Err (String × Nat)
  | 0, _, _, _ => .error (.parse "copy loop out of fuel")
  | fuel + 1, toks, i, acc =>
    match nextTok toks i with
    | .error e => .error e
    | .ok (t, i1) =>
      if t.isArgumentNameExact then .ok (acc, i)
      else if t.textOrNone = some ")" then .ok (acc, i)
      else
        match t.textOrNone with
        | none => .error .assertViol
        | some txt =>
          copyGo fuel toks i1 (acc ++ txt ++ (if t.isKeywordClass then " " else ""))

/-- The membership test token.text in the set containing "/" and "*" used by
both argument loops of annotate.get_annotation (lines 863 and 896): the
separators that consume a visual argument position. -/
def marksSkipSlot (txt : String) : Bool := txt = "/" ∨ txt = "*"

/-- Skip-set pre-scan of annotate.get_annotation lines 853-874 over the
tokens after the copied head: count visual argument slots and record the
slots taken by bare "/" or "*" separators. -/
def prescanArgs : List Tok → Nat → Finset Nat → Except Err (Finset Nat × Nat)
  | [], _, _ => .error (.parse "Ran out of tokens")
  | t :: rest, argument, skip =>
    if t.isRetOrEndDef then .ok (skip, argument)
    else if t.isSeparatorClass then
      if marksSkipSlot (t.textOrNone.getD "") then
        prescanArgs rest (argument + 1) (insert argument skip)
      else prescanArgs rest argument skip
    else if t.isArgumentNameExact then prescanArgs rest (argument + 1) skip
    else if t.isEndTok then
      .error (.parse "Found End token during argument location handling")
    else prescanArgs rest argument skip

/-- arg_place computation of annotate.get_annotation lines 877-882: the
number of inferred types minus the visual slot count; when negative, slot 0
is added to the skip set and arg_place is clamped to -1. -/
def clampArgPlace (nTypes visualCount : Nat) (skip : Finset Nat) : Finset Nat × Int :=
  let ap : Int := (nTypes : Int) - (visualCount : Int)
  if ap < 0 then (insert 0 skip, -1) else (skip, ap)

/-- Head copy, pre-scan and clamp combined: the synthesizer state right
before the argument emission loop. -/
def skipAndPlace (defToks : List Tok) (nTypes : Nat) :
    Except Err (String × Nat × Finset Nat × Int) :=
  match copyGo (defToks.length + 1) defToks 0 "" with
  | .error e => .error e
  | .ok (head, i1) =>
    match prescanArgs (defToks.drop i1) 0 ∅ with
    | .error e => .error e
    | .ok (skip0, visualCount) =>
      let (skip, ap) := clampArgPlace nTypes visualCount skip0
      .ok (head, i1, skip, ap)

/-- Argument emission loop of annotate.get_annotation lines 886-939. -/
def mainLoop : Nat → List Tok → Nat → List (List Tok) → List String → Finset Nat →
    Nat → Int → String → Except Err (String × Nat)
  | 0, _, _, _, _, _, _, _, _ => .error (.parse "argument loop out of fuel")
  | fuel + 1, toks, i, argToks, ignoreModules, skip, argument, argPlace, acc =>
    match nextTok toks i with
    | .error e => .error e
    | .ok (t, i1) =>
      if t.isSeparatorClass then
        let txt := t.textOrNone.getD ""
        let acc1 := if t.isEndSeparatorExact then acc ++ txt else acc ++ txt ++ " "
        let argument1 := if marksSkipSlot txt then argument + 1 else argument
        if txt = ")" then .ok (acc1, i1)
        else mainLoop fuel toks i1 argToks ignoreModules skip argument1 argPlace acc1
      else if t.isArgumentNameExact then
        let name := t.textOrNone.getD ""
        (do
          let pk ← peekTok toks i1
          let (typeText1, i2) ←
            if pk.isTypeDefExact then do
              let ia ← expectText toks i1 ":"
              let (tv, ib) ← parseTypeF (parserFuel toks) toks ia
              pure ((": " ++ getTypevalueRepr ignoreModules tv : String), ib)
            else if ¬ argument ∈ skip then do
              let argT ← pyIdx argToks argPlace
              let (tv, _) ← parseTypeF (parserFuel argT) argT 0
              pure ((": " ++ getTypevalueRepr ignoreModules tv : String), i1)
            else pure (("" : String), i1)
          let pk2 ← peekTok toks i2
          let (typeText2, i3) ←
            if pk2.isDefaultDefExact then do
              let ia ← expectText toks i2 "="
              let pk3 ← peekTok toks ia
              if pk3.isEndSeparatorExact then do
                let (sc, ib) ← nextTok toks ia
                let scTxt := sc.textOrNone.getD ""
                let (tvs, ic) ← parseTypeCollectionF (parserFuel toks) toks ib scTxt
                let (closer, i4) ← nextTok toks ic
                let closerTxt :=
                  match closer.textOrNone with
                  | some s2 => s2
                  | none => "None"
                pure ((typeText1 ++ " = " ++ scTxt ++
                  joinSep ", " (tvs.map (getTypevalueRepr [])) ++ closerTxt : String), i4)
              else do
                let (tv, ib) ← parseTypeF (parserFuel toks) toks ia
                pure ((typeText1 ++ " = " ++ getTypevalueRepr [] tv : String), ib)
            else pure (typeText1, i2)
          mainLoop fuel toks i3 argToks ignoreModules skip (argument + 1) (argPlace + 1)
            (acc ++ name ++ typeText2))
      else if t.isEndTok then .ok (acc, i)
      else mainLoop fuel toks i1 argToks ignoreModules skip argument argPlace acc

/-- Trailing copy loop of annotate.get_annotation lines 953-958. -/
def finishTail : Nat → List Tok → Nat → String → Except Err String
  | 0, _, _, _ => .error (.parse "tail loop out of fuel")
  | fuel + 1, toks, i, acc =>
    match nextTok toks i with
    | .error e => .error e
    | .ok (t, i1) =>
      if t.isEndTok then .ok acc
      else
        match t.textOrNone with
        | none => .error .assertViol
        | some txt => finishTail fuel toks i1 (acc ++ txt)

/-- annotate.get_annotation: the full synthesizer.  The annotation record is
passed as its components (line, signature.arg_types, signature.return_type,
path); the definition token stream ptoks is the output of the external
standard library tokenizer on the header lines served by getLine. -/
def getAnnotCore (ptoks : List PyTok) (getLine : Nat → String) (startLine : Nat)
    (argTypes : List String) (returnType : String) (path : String) :
    Except Err (String × Nat) := do
  let (defToks, lineCount) ←
    match tokenizeDefinition getLine startLine ptoks with
    | .error (.eof _) => .error (.parse "Reached End of File, expected end of definition")
    | .error e => .error e
    | .ok r => pure r
  let argToks ← argTypes.mapM tokenizeStr
  let returnToks ← tokenizeStr returnType
  let ignoreModules := computeIgnoreModules path
  let (head, i1, skip, argPlace) ← skipAndPlace defToks argTypes.length
  let (mid, i2) ← mainLoop (defToks.length + 8) defToks i1 argToks ignoreModules skip
    0 argPlace head
  let pk ← peekTok defToks i2
  let (toks2, i3) :=
    if pk.isEndDefinitionExact ∨ pk.isEndTok then
      (Tok.returnTypeDef "->" :: (returnToks.dropLast ++ defToks.drop i2), 0)
    else (defToks, i2)
  let i4 ← expectText toks2 i3 "->"
  let (tvRet, i5) ← parseTypeF (parserFuel toks2) toks2 i4
  let out ← finishTail (toks2.length + 8) toks2 i5 (mid ++ " -> " ++ getTypevalueRepr [] tvRet)
  pure (out, lineCount)


/-! ## Concrete inputs used by the claims

Each PyTok list below is the output of the CPython tokenize module on the
quoted header lines (kind name, string, end column, raw line, lines pulled
when yielded), truncated at the header-terminating colon at which
tokenize_definition stops consuming. -/

/-- Header line of the first literal example: def format_id(user): . -/
def c1Line : String := "def format_id(user):\n"

/-- CPython token stream for c1Line. -/
def c1PyToks : List PyTok :=
  [⟨"NAME", "def", 3, c1Line, 1⟩, ⟨"NAME", "format_id", 13, c1Line, 1⟩,
   ⟨"OP", "(", 14, c1Line, 1⟩, ⟨"NAME", "user", 18, c1Line, 1⟩,
   ⟨"OP", ")", 19, c1Line, 1⟩, ⟨"OP", ":", 20, c1Line, 1⟩]

/-- get_line callback serving c1Line as line 0. -/
def c1GetLine : Nat → String := fun n => if n = 0 then c1Line else ""

/-- First header line of the multi-line lambda example. -/
def c2Line0 : String := "def potato(\n"

/-- Second header line of the multi-line lambda example. -/
def c2Line1 : String := "    get_line = lambda lno: GLOBAL_LINES[lno]\n"

/-- Third header line of the multi-line lambda example. -/
def c2Line2 : String := "):"

/-- CPython token stream for the three c2 lines. -/
def c2PyToks : List PyTok :=
  [⟨"NAME", "def", 3, c2Line0, 1⟩, ⟨"NAME", "potato", 10, c2Line0, 1⟩,
   ⟨"OP", "(", 11, c2Line0, 1⟩, ⟨"NL", "\n", 12, c2Line0, 1⟩,
   ⟨"NAME", "get_line", 12, c2Line1, 2⟩, ⟨"OP", "=", 14, c2Line1, 2⟩,
   ⟨"NAME", "lambda", 21, c2Line1, 2⟩, ⟨"NAME", "lno", 25, c2Line1, 2⟩,
   ⟨"OP", ":", 26, c2Line1, 2⟩, ⟨"NAME", "GLOBAL_LINES", 39, c2Line1, 2⟩,
   ⟨"OP", "[", 40, c2Line1, 2⟩, ⟨"NAME", "lno", 43, c2Line1, 2⟩,
   ⟨"OP", "]", 44, c2Line1, 2⟩, ⟨"NL", "\n", 45, c2Line1, 2⟩,
   ⟨"OP", ")", 1, c2Line2, 3⟩, ⟨"OP", ":", 2, c2Line2, 3⟩]

/-- get_line callback serving the three c2 lines. -/
def c2GetLine : Nat → String := fun n =>
  if n = 0 then c2Line0 else if n = 1 then c2Line1 else if n = 2 then c2Line2 else ""

/-- Header line of the positional-correctness example. -/
def c4Line : String := "def f(self, a, b): ...\n"

/-- CPython token stream for c4Line. -/
def c4PyToks : List PyTok :=
  [⟨"NAME", "def", 3, c4Line, 1⟩, ⟨"NAME", "f", 5, c4Line, 1⟩,
   ⟨"OP", "(", 6, c4Line, 1⟩, ⟨"NAME", "self", 10, c4Line, 1⟩,
   ⟨"OP", ",", 11, c4Line, 1⟩, ⟨"NAME", "a", 13, c4Line, 1⟩,
   ⟨"OP", ",", 14, c4Line, 1⟩, ⟨"NAME", "b", 16, c4Line, 1⟩,
   ⟨"OP", ")", 17, c4Line, 1⟩, ⟨"OP", ":", 18, c4Line, 1⟩]

/-- get_line callback serving c4Line as line 0. -/
def c4GetLine : Nat → String := fun n => if n = 0 then c4Line else ""

/-- Header line of the marker-skipping example. -/
def c5Line : String := "def f(self, obj_id: int, /, **kwargs): ...\n"

/-- CPython token stream for c5Line. -/
def c5PyToks : List PyTok :=
  [⟨"NAME", "def", 3, c5Line, 1⟩, ⟨"NAME", "f", 5, c5Line, 1⟩,
   ⟨"OP", "(", 6, c5Line, 1⟩, ⟨"NAME", "self", 10, c5Line, 1⟩,
   ⟨"OP", ",", 11, c5Line, 1⟩, ⟨"NAME", "obj_id", 18, c5Line, 1⟩,
   ⟨"OP", ":", 19, c5Line, 1⟩, ⟨"NAME", "int", 23, c5Line, 1⟩,
   ⟨"OP", ",", 24, c5Line, 1⟩, ⟨"OP", "/", 26, c5Line, 1⟩,
   ⟨"OP", ",", 27, c5Line, 1⟩, ⟨"OP", "**", 30, c5Line, 1⟩,
   ⟨"NAME", "kwargs", 36, c5Line, 1⟩, ⟨"OP", ")", 37, c5Line, 1⟩,
   ⟨"OP", ":", 38, c5Line, 1⟩]

/-- get_line callback serving c5Line as line 0. -/
def c5GetLine : Nat → String := fun n => if n = 0 then c5Line else ""

/-- Header line with two leading untyped slots: def f(self, extra, a): . -/
def c3Line : String := "def f(self, extra, a):\n"

/-- CPython token stream for c3Line. -/
def c3PyToks : List PyTok :=
  [⟨"NAME", "def", 3, c3Line, 1⟩, ⟨"NAME", "f", 5, c3Line, 1⟩,
   ⟨"OP", "(", 6, c3Line, 1⟩, ⟨"NAME", "self", 10, c3Line, 1⟩,
   ⟨"OP", ",", 11, c3Line, 1⟩, ⟨"NAME", "extra", 17, c3Line, 1⟩,
   ⟨"OP", ",", 18, c3Line, 1⟩, ⟨"NAME", "a", 20, c3Line, 1⟩,
   ⟨"OP", ")", 21, c3Line, 1⟩, ⟨"OP", ":", 22, c3Line, 1⟩]

/-- get_line callback serving c3Line as line 0. -/
def c3GetLine : Nat → String := fun n => if n = 0 then c3Line else ""

/-- The pre-clamp pre-scan of a definition token list exactly as
get_annotation composes it: head copy, then prescanArgs over the remaining
tokens. -/
def prescanOfDef (defToks : List Tok) : Except Err (Finset Nat × Nat) :=
  match copyGo (defToks.length + 1) defToks 0 "" with
  | .error e => .error e
  | .ok (_, i1) => prescanArgs (defToks.drop i1) 0 ∅


end Annotate



namespace Annotate

/-! ## Claim theorems -/

/-- C1: for the single-line header def format_id(user): served by get_line(0),
get_annotation with arg_types ["int"] and return_type "str" returns exactly
"def format_id(user: int) -> str:" with one line consumed. -/
theorem claimC1 :
    getAnnotCore c1PyToks c1GetLine 0 ["int"] "str" "" =
      .ok ("def format_id(user: int) -> str:", 1) := rfl

/-- C2: for the three-line header of def potato with a lambda default,
get_annotation with arg_types ["Callable[[int], str]"] and return_type
"bool" reproduces the lambda default verbatim and splices the inferred type
between the argument name and the equals sign. -/
theorem claimC2 :
    getAnnotCore c2PyToks c2GetLine 0 ["Callable[[int], str]"] "bool" "" =
      .ok ("def potato(\n    get_line: Callable[[int], str] = lambda lno: GLOBAL_LINES[lno]\n) -> bool:", 3) := rfl

/-- C3 counterexample: for def f(self, extra, a): with one inferred type the
deficit is 2, yet the skip set after clamping is exactly the singleton 0:
slot 1 is not added, refuting the claim that all k leading slots are
skipped. -/
theorem claimC3_counterexample :
    ((tokenizeDefinition c3GetLine 0 c3PyToks).bind (fun r => skipAndPlace r.1 1)) =
      .ok ("def f(", 3, {0}, -1) ∧
    ¬ ((tokenizeDefinition c3GetLine 0 c3PyToks).bind (fun r => skipAndPlace r.1 1)) =
      .ok ("def f(", 3, {0, 1}, -1) := ⟨by decide, by decide⟩

/-- C3 amended: whenever arg_place = len(arg_types) - visual_slot_count is
negative, the code adds only slot 0 to the skip set (however large the
deficit) and clamps arg_place to -1; on the two-slot-deficit header
def f(self, extra, a): this gives skip set containing only 0. -/
theorem claimC3_amended :
    (∀ (n v : Nat) (skip : Finset Nat), (n : Int) - (v : Int) < 0 →
      clampArgPlace n v skip = (insert 0 skip, -1)) ∧
    ((tokenizeDefinition c3GetLine 0 c3PyToks).bind (fun r => skipAndPlace r.1 1)) =
      .ok ("def f(", 3, insert 0 ∅, -1) := by
  constructor
  · intro n v skip h
    simp only [clampArgPlace]
    rw [if_pos h]
  · decide

/-- Witness for claimC3_amended at n = 1, v = 3. -/
theorem claimC3_amended_witness : clampArgPlace 1 3 ∅ = (insert 0 ∅, -1) :=
  claimC3_amended.1 1 3 ∅ (by decide)

/-- C4 counterexample: with return_type "None" the output is
"def f(self, a: int, b: str) -> None:", not the claimed
"def f(self, a: int, b: str):" (get_annotation always splices the inferred
return annotation before the terminal colon). -/
theorem claimC4_counterexample :
    getAnnotCore c4PyToks c4GetLine 0 ["int", "str"] "None" "" =
      .ok ("def f(self, a: int, b: str) -> None:", 1) ∧
    ¬ getAnnotCore c4PyToks c4GetLine 0 ["int", "str"] "None" "" =
      .ok ("def f(self, a: int, b: str):", 1) := ⟨rfl, by decide⟩

/-- C4 amended: for def f(self, a, b): with arg_types ["int", "str"] and
return_type "None", self receives no inferred type, a receives int, b
receives str, and the inferred return annotation is spliced before the
colon: the output is "def f(self, a: int, b: str) -> None:". -/
theorem claimC4_amended :
    getAnnotCore c4PyToks c4GetLine 0 ["int", "str"] "None" "" =
      .ok ("def f(self, a: int, b: str) -> None:", 1) := rfl

/-- C5 counterexample: the marker membership test of the argument loops
excludes "**", and on the def f(self, obj_id: int, /, **kwargs): header the
pre-scan counts 4 visual slots with skip set the singleton 2 (the "/")
rather than the 5 slots with skips 2 and 3 that the claim's
"*-family markers consume a visual position" entails. -/
theorem claimC5_counterexample :
    marksSkipSlot "**" = false ∧
    ((tokenizeDefinition c5GetLine 0 c5PyToks).bind (fun r => prescanOfDef r.1)) =
      .ok ({2}, 4) ∧
    ¬ ((tokenizeDefinition c5GetLine 0 c5PyToks).bind (fun r => prescanOfDef r.1)) =
      .ok ({2, 3}, 5) := ⟨rfl, by decide, by decide⟩

/-- C5 amended: obj_id keeps its authored annotation int, the bare "/"
consumes visual slot 2 without a type, "**" consumes no visual slot, and
**kwargs receives str; with return_type "None" the full output is
"def f(self, obj_id: int, /, **kwargs: str) -> None:". -/
theorem claimC5_amended :
    getAnnotCore c5PyToks c5GetLine 0 ["float", "str"] "None" "" =
      .ok ("def f(self, obj_id: int, /, **kwargs: str) -> None:", 1) ∧
    marksSkipSlot "/" = true ∧
    ((tokenizeDefinition c5GetLine 0 c5PyToks).bind (fun r => skipAndPlace r.1 2)) =
      .ok ("def f(", 3, {0, 2}, -1) := ⟨rfl, rfl, by decide⟩

/-- C7: parsing then rendering Optional[int] gives int | None, a
single-element Union[int] collapses to int, and the empty Union[] fails
with the ParseError "No items in Union". -/
theorem claimC7 :
    renderTypeString "Optional[int]" = .ok "int | None" ∧
    parseTypeString "Union[int]" = .ok (.mk "int" []) ∧
    renderTypeString "Union[int]" = .ok "int" ∧
    parseTypeString "Union[]" = .error (.parse "No items in Union") :=
  ⟨rfl, rfl, rfl, rfl⟩

end Annotate

namespace Annotate

/-- get_type_repr returns the name unchanged when it holds no dot and no
colon, whatever the ignored modules are. -/
lemma getTypeRepr_no_sep (name : String) (ignoreModules : List String)
    (h1 : splitFirst '.' name.data = none) (h2 : splitFirst ':' name.data = none) :
    getTypeRepr name ignoreModules = name := by
  simp [getTypeRepr, typeReprStep, h1, h2]

/-- Rendering a TypeValue whose name passes get_type_repr unchanged, is in
TYPING_LOWER, and lower-cases to a nonempty name that is neither Union nor
the dict-item hack: the head of the rendering is the lower-cased name. -/
lemma renderLowerAux (ignoreModules : List String) (n : String) (args : List TypeValue)
    (hrep : getTypeRepr n ignoreModules = n) (hmem : n ∈ TYPING_LOWER)
    (hne : ¬ lowerStr n = "") (hU : ¬ lowerStr n = "Union")
    (hD : ¬ lowerStr n = "__hacks_DictItem") :
    getTypevalueRepr ignoreModules (.mk n args) =
      (if args.isEmpty then lowerStr n
       else lowerStr n ++ "[" ++ joinSep ", " (getTypevalueReprList ignoreModules args) ++ "]") := by
  cases args with
  | nil => simp [getTypevalueRepr, hrep, hmem, hne]
  | cons hd tl => simp [getTypevalueRepr, hrep, hmem, hU, hD]

/-- C10: the renderer lower-cases every TypeValue whose name is one of
List, Set, Type, Dict, Tuple, Overload even without a typing or
mypy_extensions prefix; in particular the tree parsed from
"Tuple[int, str]" keeps the literal name Tuple and renders as
"tuple[int, str]". -/
theorem claimC10 :
    parseTypeString "Tuple[int, str]" = .ok (.mk "Tuple" [.mk "int" [], .mk "str" []]) ∧
    renderTypeString "Tuple[int, str]" = .ok "tuple[int, str]" ∧
    (∀ (ignoreModules : List String) (n : String) (args : List TypeValue),
      TYPING_LOWER.contains n = true →
      getTypevalueRepr ignoreModules (.mk n args) =
        (if args.isEmpty then lowerStr n
         else lowerStr n ++ "[" ++ joinSep ", " (getTypevalueReprList ignoreModules args) ++ "]")) := by
  refine ⟨rfl, rfl, ?_⟩
  intro ignoreModules n args hmem
  have hm : n ∈ TYPING_LOWER := by simpa using hmem
  simp only [TYPING_LOWER, List.mem_cons, List.mem_singleton, List.not_mem_nil, or_false] at hm
  rcases hm with rfl | rfl | rfl | rfl | rfl | rfl <;>
    exact renderLowerAux _ _ args (getTypeRepr_no_sep _ _ (by decide) (by decide))
      (by decide) (by decide) (by decide) (by decide)

/-- Witness for claimC10 at the bare name Dict. -/
theorem claimC10_witness : getTypevalueRepr [] (.mk "Dict" []) = "dict" := by
  have h := claimC10.2.2 [] "Dict" [] (by decide)
  exact h.trans (by decide)

end Annotate

namespace Annotate

/-- C8: at any position where the type-expression lexer falls through to the
name branch and the pattern matches, the lexer emits one DottedName token
and continues, never raising at that step; the collapsed name is rewritten
to datetime.tzinfo when it is prefixed pytz.tzfile., and any other collapsed
name containing a dash or slash becomes Any; the lexer raises only at a
position where no token can be matched at all. -/
theorem claimC8 :
    (∀ (fuel : Nat) (l m r : List Char), inNameBranch l → matchName l = some (m, r) →
      tokenizeGo (fuel + 1) l =
        (tokenizeGo fuel r).map (fun ts => Tok.dottedName (processName m) :: ts)) ∧
    (∀ m : List Char, List.isPrefixOf "pytz.tzfile.".toList (collapseName m) = true →
      processName m = "datetime.tzinfo") ∧
    (∀ m : List Char, ¬ List.isPrefixOf "pytz.tzfile.".toList (collapseName m) = true →
      ((collapseName m).contains '-' = true ∨ (collapseName m).contains '/' = true) →
      processName m = "Any") ∧
    (∀ (fuel : Nat) (l : List Char), inNameBranch l → matchName l = none →
      tokenizeGo (fuel + 1) l = .error (.parse ("Could not parse " ++ String.mk l))) := by
  refine ⟨?_, ?_, ?_, ?_⟩
  · intro fuel l m r h hm
    cases l with
    | nil => simp [inNameBranch] at h
    | cons c rest =>
      obtain ⟨h1, h2, h3, h4⟩ := h
      simp only [tokenizeGo]
      rw [if_neg h1, if_neg h2, if_neg h3, if_neg h4, hm]
  · intro m hp
    simp only [processName]
    rw [if_pos hp]
    decide
  · intro m hnp hd
    simp only [processName]
    rw [if_neg hnp, if_pos hd]
  · intro fuel l h hm
    cases l with
    | nil => simp [inNameBranch] at h
    | cons c rest =>
      obtain ⟨h1, h2, h3, h4⟩ := h
      simp only [tokenizeGo]
      rw [if_neg h1, if_neg h2, if_neg h3, if_neg h4, hm]

/-- Witness for claimC8: a slash after a dot collapses to Any without
raising; a pytz.tzfile name rewrites to datetime.tzinfo; a dashed
type-variable id becomes Any; a position starting with a slash has no match
and raises. -/
theorem claimC8_witness :
    tokenizeGo 5 "a.b/c".toList =
      (tokenizeGo 4 ([] : List Char)).map (fun ts => Tok.dottedName "Any" :: ts) ∧
    processName "pytz.tzfile.US/Pacific".toList = "datetime.tzinfo" ∧
    processName "T-1".toList = "Any" ∧
    tokenizeGo 3 "/x".toList = .error (.parse ("Could not parse " ++ String.mk "/x".toList)) := by
  refine ⟨?_, ?_, ?_, ?_⟩
  · have h := claimC8.1 4 "a.b/c".toList "a.b/c".toList [] (by decide) (by decide)
    have h2 : processName "a.b/c".toList = "Any" := by decide
    rw [h2] at h
    exact h
  · exact claimC8.2.1 "pytz.tzfile.US/Pacific".toList (by decide)
  · exact claimC8.2.2.1 "T-1".toList (by decide) (by decide)
  · exact claimC8.2.2.2 2 "/x".toList (by decide) (by decide)

end Annotate

namespace Annotate

/-- Unpacking a mapped cons over Except. -/
lemma map_cons_ok {e : Except Err (List Tok)} {t : Tok} {toks : List Tok}
    (h : e.map (fun ts => t :: ts) = .ok toks) : ∃ ts, e = .ok ts ∧ toks = t :: ts := by
  cases e with
  | error err => simp [Except.map] at h
  | ok ts =>
    refine ⟨ts, rfl, ?_⟩
    simpa [Except.map] using h.symm

/-- Every successful run of the type-expression lexer main loop produces a
token list of the form prefix ++ [End] with no End in the prefix. -/
lemma tokenizeGo_shape : ∀ (fuel : Nat) (l : List Char) (toks : List Tok),
    tokenizeGo fuel l = .ok toks → ∃ pre, toks = pre ++ [Tok.endTok] ∧ ¬ Tok.endTok ∈ pre := by
  intro fuel
  induction fuel with
  | zero => intro l toks h; simp [tokenizeGo] at h
  | succ f ih =>
    intro l toks h
    cases l with
    | nil =>
      simp only [tokenizeGo, Except.ok.injEq] at h
      exact ⟨[], h.symm, by simp⟩
    | cons c rest =>
      simp only [tokenizeGo] at h
      split at h
      · exact ih rest toks h
      · split at h
        · obtain ⟨ts, hr, rfl⟩ := map_cons_ok h
          obtain ⟨pre, rfl, hm⟩ := ih _ _ hr
          refine ⟨_ :: pre, rfl, ?_⟩
          simp [hm]
        · split at h
          · obtain ⟨ts, hr, rfl⟩ := map_cons_ok h
            obtain ⟨pre, rfl, hm⟩ := ih _ _ hr
            refine ⟨_ :: pre, rfl, ?_⟩
            simp [hm]
          · split at h
            · obtain ⟨ts, hr, rfl⟩ := map_cons_ok h
              obtain ⟨pre, rfl, hm⟩ := ih _ _ hr
              refine ⟨_ :: pre, rfl, ?_⟩
              simp [hm]
            · split at h
              · simp at h
              · obtain ⟨ts, hr, rfl⟩ := map_cons_ok h
                obtain ⟨pre, rfl, hm⟩ := ih _ _ hr
                refine ⟨_ :: pre, rfl, ?_⟩
                simp [hm]

/-- The injection from loop tokens never yields End. -/
lemma tokNE_toTok_ne_end (t : TokNE) : ¬ t.toTok = Tok.endTok := by
  cases t <;> simp [TokNE.toTok]

/-- No End token occurs in an injected loop-token list. -/
lemma endTok_not_mem_map (l : List TokNE) : ¬ Tok.endTok ∈ l.map TokNE.toTok := by
  intro h
  obtain ⟨x, -, hx⟩ := List.mem_map.mp h
  exact tokNE_toTok_ne_end x hx

/-- Count-one and last-position facts for a list of the form
prefix ++ [End] with End-free prefix. -/
lemma endTerm_count_last (pre : List Tok) (hm : ¬ Tok.endTok ∈ pre) :
    (pre ++ [Tok.endTok]).count Tok.endTok = 1 ∧
    (pre ++ [Tok.endTok]).getLast? = some Tok.endTok := by
  constructor
  · rw [List.count_append, List.count_eq_zero.mpr hm]
    simp
  · rw [List.getLast?_append]
    simp

/-- C9: every token list produced by a successful run of the
type-expression lexer or of the definition lexer contains exactly one End
token, positioned last; and a Parser that reads past the final token fails
with the ParseError "Ran out of tokens". -/
theorem claimC9 :
    (∀ (fuel : Nat) (l : List Char) (toks : List Tok), tokenizeGo fuel l = .ok toks →
      toks.count Tok.endTok = 1 ∧ toks.getLast? = some Tok.endTok) ∧
    (∀ (getLine : Nat → String) (startLine : Nat) (ptoks : List PyTok)
      (toks : List Tok) (n : Nat),
      tokenizeDefinition getLine startLine ptoks = .ok (toks, n) →
      toks.count Tok.endTok = 1 ∧ toks.getLast? = some Tok.endTok) ∧
    (∀ (toks : List Tok) (i : Nat), toks.length ≤ i →
      peekTok toks i = .error (.parse "Ran out of tokens")) := by
  refine ⟨?_, ?_, ?_⟩
  · intro fuel l toks h
    obtain ⟨pre, rfl, hm⟩ := tokenizeGo_shape fuel l toks h
    exact endTerm_count_last pre hm
  · intro getLine startLine ptoks toks n h
    unfold tokenizeDefinition at h
    cases hr : tdGo getLine startLine (ptoks.length + 1) initDefLexState ptoks with
    | error e => rw [hr] at h; simp [Except.map] at h
    | ok r =>
      rw [hr] at h
      simp only [Except.map, Except.ok.injEq, Prod.mk.injEq] at h
      obtain ⟨rfl, -⟩ := h
      exact endTerm_count_last _ (endTok_not_mem_map _)
  · intro toks i h
    simp [peekTok, show ¬ i < toks.length from by omega]

/-- Witness for claimC9 on the stream of "int", on the C1 header, and on an
out-of-range cursor. -/
theorem claimC9_witness :
    ([Tok.dottedName "int", Tok.endTok].count Tok.endTok = 1 ∧
      [Tok.dottedName "int", Tok.endTok].getLast? = some Tok.endTok) ∧
    peekTok [] 5 = .error (.parse "Ran out of tokens") := by
  constructor
  · exact claimC9.1 4 "int".toList [Tok.dottedName "int", Tok.endTok] (by decide)
  · exact claimC9.2.2 [] 5 (by simp)

end Annotate
